import Mathlib

/-!
Verification of the PharmaGuard pharmacogenomic core pipeline.

Shallow embedding of the three core components:
* the VCF extraction service (`backend/app/services`) — VCF v4.2 extraction,
* `backend/app/services/pharmacogenomics.py` — diplotype resolution,
* `backend/app/services/risk_engine.py` — CPIC risk classification.

Python strings are modelled as Lean `String`, Python `float` values (all of
which are exact decimal constants or exact sums of halves in this code) as
`Rat`, Python `int` as `Int`.  Python exceptions escaping a function are
modelled with `Except String`.  Rational constants are written with `mkRat`
and added with the kernel-reducible `addQ` (proved equal to `+` below) so
that concrete runs of the pipeline can be evaluated by `decide`.
-/

set_option maxRecDepth 100000

namespace PharmaGuard

/-- Equality on modelled call outcomes is decidable. -/
instance {α β : Type} [DecidableEq α] [DecidableEq β] : DecidableEq (Except α β)
  | .error a, .error b =>
    if h : a = b then isTrue (by rw [h]) else isFalse (by simp [h])
  | .ok a, .ok b =>
    if h : a = b then isTrue (by rw [h]) else isFalse (by simp [h])
  | .error _, .ok _ => isFalse (by simp)
  | .ok _, .error _ => isFalse (by simp)

/-- Kernel-reducible addition on `Rat` (Batteries marks `Rat.add`
irreducible); exact, and proved equal to `+` in `addQ_eq`. -/
def addQ (a b : Rat) : Rat := mkRat (a.num * b.den + b.num * a.den) (a.den * b.den)

/-! ### String primitives mirroring the Python string operations used -/

/-- Python `str.strip()` on the character list (whitespace both ends). -/
def pyStrip (l : List Char) : List Char :=
  ((l.dropWhile Char.isWhitespace).reverse.dropWhile Char.isWhitespace).reverse

/-- Python `str.strip()`. -/
def stripStr (s : String) : String := ⟨pyStrip s.data⟩

/-- Python `str.split(sep)` for a one-character separator: always returns at
least one (possibly empty) piece. -/
def splitCh (c : Char) : List Char → List (List Char)
  | [] => [[]]
  | x :: xs =>
    let r := splitCh c xs
    if x = c then [] :: r
    else
      match r with
      | [] => [[x]]
      | h :: t => (x :: h) :: t

/-- Python `str.split(sep)` on `String`s. -/
def splitStr (c : Char) (s : String) : List String :=
  (splitCh c s.data).map (fun l => ⟨l⟩)

/-- Python `re.split` on a character class, e.g. `re.split(r"[/|]", gt)`. -/
def splitPred (p : Char → Bool) : List Char → List (List Char)
  | [] => [[]]
  | x :: xs =>
    let r := splitPred p xs
    if p x then [] :: r
    else
      match r with
      | [] => [[x]]
      | h :: t => (x :: h) :: t

/-- Python `s.split(c, 1)`: the parts before and after the first `c`
(whole string and empty tail when `c` is absent). -/
def splitFirst (c : Char) : List Char → List Char × List Char
  | [] => ([], [])
  | x :: xs =>
    if x = c then ([], xs)
    else
      let p := splitFirst c xs
      (x :: p.1, p.2)

/-- Python `str.startswith`. -/
def pyStartsWith (p : String) (s : String) : Bool := p.data.isPrefixOf s.data

/-- Python `str.upper()` (ASCII; identical to Python on the data involved). -/
def upperStr (s : String) : String := ⟨s.data.map Char.toUpper⟩

/-- Python `"/".join(l)` and friends. -/
def joinWith (sep : String) : List String → String
  | [] => ""
  | [x] => x
  | x :: xs => x ++ sep ++ joinWith sep xs

/-- Python `s.replace("chr", "")`: removes every (non-overlapping,
left-to-right) occurrence of `chr`. -/
def stripChrAll : List Char → List Char
  | 'c' :: 'h' :: 'r' :: rest => stripChrAll rest
  | x :: rest => x :: stripChrAll rest
  | [] => []

/-- Python `s.replace("chr", "")` on `String`s. -/
def replChr (s : String) : String := ⟨stripChrAll s.data⟩

/-- Decimal digits of a natural number (`fuel` bounds the recursion and is
always sufficient at `n + 1`). -/
def natToStrAux : Nat → Nat → List Char
  | 0, _ => []
  | fuel + 1, n =>
    if n < 10 then [Nat.digitChar n]
    else natToStrAux fuel (n / 10) ++ [Nat.digitChar (n % 10)]

/-- Python `str(n)` for a natural number. -/
def natToStr (n : Nat) : String := ⟨natToStrAux (n + 1) n⟩

/-- Python `str(i)` for an integer. -/
def intToStr : Int → String
  | .ofNat n => natToStr n
  | .negSucc n => "-" ++ natToStr (n + 1)

/-- Value of a digit string. -/
def digitsToNat (l : List Char) : Nat := l.foldl (fun acc c => acc * 10 + (c.toNat - 48)) 0

/-- Python `int(s)`: optional surrounding whitespace, optional sign, at
least one digit; anything else raises (`none`). -/
def parseInt (s : String) : Option Int :=
  let t := pyStrip s.data
  match t with
  | '-' :: rest =>
    if rest ≠ [] ∧ rest.all Char.isDigit then some (-(digitsToNat rest : Int)) else none
  | '+' :: rest =>
    if rest ≠ [] ∧ rest.all Char.isDigit then some (digitsToNat rest : Int) else none
  | _ =>
    if t ≠ [] ∧ t.all Char.isDigit then some (digitsToNat t : Int) else none

/-- Python `float(s)` on the plain decimal forms the VCF quality column
uses: optional sign, digits with at most one decimal point, at least one
digit; anything else raises (`none`). -/
def parseFloatQ (s : String) : Option Rat :=
  let t := pyStrip s.data
  let sp : Int × List Char :=
    match t with
    | '-' :: r => (-1, r)
    | '+' :: r => (1, r)
    | _ => (1, t)
  let ip := sp.2.takeWhile Char.isDigit
  let rest := sp.2.dropWhile Char.isDigit
  match rest with
  | [] => if ip ≠ [] then some (mkRat (sp.1 * digitsToNat ip) 1) else none
  | '.' :: fr =>
    if fr.all Char.isDigit ∧ (ip ≠ [] ∨ fr ≠ []) then
      some (mkRat (sp.1 * (digitsToNat ip * 10 ^ fr.length + digitsToNat fr)) (10 ^ fr.length))
    else none
  | _ => none

/-- UTF-8 byte count of one character (as in Python `len(c.encode("utf-8"))`). -/
def charBytes (c : Char) : Nat :=
  if c.toNat < 128 then 1 else if c.toNat < 2048 then 2 else if c.toNat < 65536 then 3 else 4

/-- Python `len(content.encode("utf-8"))`. -/
def utf8Len (s : String) : Nat := s.data.foldl (fun n c => n + charBytes c) 0

/-- Python `f"{bytes/1048576:.1f}"`: megabytes to one decimal place
(round half up on the exact rational; CPython rounds the nearest double
half to even, which agrees away from exact `.05` boundaries). -/
def fmtMB1 (bytes : Nat) : String :=
  let tenths := (bytes * 10 + 524288) / 1048576
  natToStr (tenths / 10) ++ "." ++ natToStr (tenths % 10)

/-! ### The VCF extraction service -/

/-- The catalog `PHARMACO_VARIANT_DB`: rsID → (gene, star allele, functional impact). -/
def PHARMACO_VARIANT_DB : List (String × String × String × String) := [
  ("rs3892097",  ("CYP2D6",  "*4",  "no_function")),
  ("rs5030655",  ("CYP2D6",  "*6",  "no_function")),
  ("rs1065852",  ("CYP2D6",  "*10", "decreased_function")),
  ("rs16947",    ("CYP2D6",  "*2",  "normal_function")),
  ("rs1135840",  ("CYP2D6",  "*2",  "normal_function")),
  ("rs28371725", ("CYP2D6",  "*41", "decreased_function")),
  ("rs35742686", ("CYP2D6",  "*3",  "no_function")),
  ("rs4244285",  ("CYP2C19", "*2",  "no_function")),
  ("rs4986893",  ("CYP2C19", "*3",  "no_function")),
  ("rs12248560", ("CYP2C19", "*17", "increased_function")),
  ("rs28399504", ("CYP2C19", "*4",  "no_function")),
  ("rs1799853",  ("CYP2C9",  "*2",  "decreased_function")),
  ("rs1057910",  ("CYP2C9",  "*3",  "decreased_function")),
  ("rs56165452", ("CYP2C9",  "*5",  "decreased_function")),
  ("rs7900194",  ("CYP2C9",  "*8",  "decreased_function")),
  ("rs28371686", ("CYP2C9",  "*11", "decreased_function")),
  ("rs4149056",  ("SLCO1B1", "*5",  "decreased_function")),
  ("rs2306283",  ("SLCO1B1", "*1B", "normal_function")),
  ("rs4149015",  ("SLCO1B1", "*15", "decreased_function")),
  ("rs1800462",  ("TPMT",    "*2",  "no_function")),
  ("rs1800460",  ("TPMT",    "*3B", "no_function")),
  ("rs1142345",  ("TPMT",    "*3C", "no_function")),
  ("rs3918290",  ("DPYD",    "*2A", "no_function")),
  ("rs55886062", ("DPYD",    "*13", "no_function")),
  ("rs67376798", ("DPYD",    "D949V", "decreased_function")),
  ("rs75017182", ("DPYD",    "c.1129-5923C>G", "decreased_function"))]

/-- The list `settings.SUPPORTED_GENES` from `config.py`. -/
def SUPPORTED_GENES : List String :=
  ["CYP2D6", "CYP2C19", "CYP2C9", "SLCO1B1", "TPMT", "DPYD"]

/-- The `ParsedVariant` dataclass. -/
structure ParsedVariant where
  rsid : String
  chromosome : String
  position : Int
  ref : String
  alt : String
  genotype : String
  gene : String
  star_allele : String
  impact : String
  quality : Rat
deriving DecidableEq, Repr

/-- The `VCFParseResult` dataclass. -/
structure VCFParseResult where
  is_valid : Bool
  errors : List String
  warnings : List String
  sample_id : Option String
  total_variants : Nat
  pharmacogene_variants : List ParsedVariant
  gene_variants : List (String × List ParsedVariant)
deriving DecidableEq, Repr

/-- The fresh `VCFParseResult()` with the dataclass defaults. -/
def emptyResult : VCFParseResult :=
  { is_valid := true, errors := [], warnings := [], sample_id := none,
    total_variants := 0, pharmacogene_variants := [], gene_variants := [] }

/-- Python `re.search(r"VCFv?(\d+\.?\d*)", s)` attempted at the head of the
string: the captured group on success. -/
def matchVersionAt (l : List Char) : Option (List Char) :=
  match l with
  | 'V' :: 'C' :: 'F' :: rest =>
    let rest2 := match rest with
      | 'v' :: r => r
      | _ => rest
    let d1 := rest2.takeWhile Char.isDigit
    if d1 = [] then none
    else
      match rest2.dropWhile Char.isDigit with
      | '.' :: r3 => some (d1 ++ '.' :: r3.takeWhile Char.isDigit)
      | _ => some d1
  | _ => none

/-- Python `re.search(r"VCFv?(\d+\.?\d*)", s)`: first match anywhere in the
string (the pattern admits no backtracking ambiguity, so trying each
start position in order is exact). -/
def versionSearch : List Char → Option (List Char)
  | [] => none
  | c :: rest =>
    match matchVersionAt (c :: rest) with
    | some g => some g
    | none => versionSearch rest

/-- Function `validate_vcf_header`: (is_valid, errors, warnings). -/
def validate_vcf_header (lines : List String) : Bool × List String × List String :=
  match lines with
  | [] => (false, ["Empty VCF file"], [])
  | first :: _ =>
    let first_line := stripStr first
    if ¬ pyStartsWith "##fileformat=VCF" first_line then
      (false, ["Invalid VCF file: missing ##fileformat header"], [])
    else
      let warns1 :=
        match versionSearch first_line.data with
        | some v =>
          if pyStartsWith "4" ⟨v⟩ then []
          else ["VCF version " ++ (⟨v⟩ : String) ++ " detected; v4.2 expected"]
        | none => ["Could not determine VCF version"]
      match lines.find? (fun l => pyStartsWith "#CHROM" l) with
      | some cl =>
        let cols := splitStr '\t' (stripStr cl)
        let warns2 := if cols.length < 10 then ["No sample genotype column detected"] else []
        (true, [], warns1 ++ warns2)
      | none => (false, ["Missing #CHROM header line"], warns1)

/-- Function `_parse_genotype`: decode the GT subfield into allele letters.  Note
the source computes the phased/unphased separator but joins with `"/"`
unconditionally. -/
def _parse_genotype (gt_field ref alt : String) : String :=
  let gt := (splitStr ':' gt_field).getD 0 ""
  let alt_alleles := splitStr ',' alt
  let amap : List (String × String) :=
    [("0", ref), (".", ".")] ++ alt_alleles.enum.map (fun p => (natToStr (p.1 + 1), p.2))
  let indices := (splitPred (fun c => c = '/' || c = '|') gt.data).map (fun l => (⟨l⟩ : String))
  let called := indices.map (fun idx => (amap.lookup idx).getD "?")
  joinWith "/" called

/-- Function `_extract_info_field` on the already-split `;`-parts. -/
def extractInfoParts (key : String) : List String → Option String
  | [] => none
  | part :: rest =>
    if part.data.contains '=' then
      let kv := splitFirst '=' part.data
      if upperStr ⟨kv.1⟩ = upperStr key then some ⟨kv.2⟩ else extractInfoParts key rest
    else if upperStr part = upperStr key then some "true"
    else extractInfoParts key rest

/-- Function `_extract_info_field`: value of `key` in a `;`-separated INFO field. -/
def _extract_info_field (info_str key : String) : Option String :=
  extractInfoParts key (splitStr ';' info_str)

/-- The `any(v.position == pos and v.chromosome == f"chr{chrom}" ...)` scan. -/
def hasPosRecord (vs : List ParsedVariant) (chrom : String) (pos : Int) : Bool :=
  vs.any (fun v => v.position == pos && v.chromosome == "chr" ++ chrom)

/-- Python `dict.setdefault(gene, []).append(pv)` on the gene→variants mapping. -/
def addGeneVariant : List (String × List ParsedVariant) → String → ParsedVariant →
    List (String × List ParsedVariant)
  | [], g, pv => [(g, [pv])]
  | (k, vs) :: rest, g, pv =>
    if k = g then (k, vs ++ [pv]) :: rest else (k, vs) :: addGeneVariant rest g pv

/-- Append one produced record to the flat list and its gene bucket. -/
def appendVariant (st : VCFParseResult) (gene : String) (pv : ParsedVariant) : VCFParseResult :=
  { st with
    pharmacogene_variants := st.pharmacogene_variants ++ [pv]
    gene_variants := addGeneVariant st.gene_variants gene pv }

/-- Strategies 1–2: rsIDs from the ID column plus a normalized INFO `RS`
tag (appended only when not already present). -/
def collectRsids (var_id info : String) : List String :=
  let rsids0 := (splitStr ';' var_id).filter (fun x => pyStartsWith "rs" x)
  match _extract_info_field info "RS" with
  | some s =>
    if s ≠ "" then
      let tag := if pyStartsWith "rs" s then s else "rs" ++ s
      if rsids0.contains tag then rsids0 else rsids0 ++ [tag]
    else rsids0
  | none => rsids0

/-- One step of the rsID catalog loop (strategies 1–2): a catalog hit
produces a record, a miss leaves the state unchanged. -/
def rsStep (chrom : String) (pos : Int) (ref alt genotype : String) (qual : Rat)
    (acc : VCFParseResult) (rsid : String) : VCFParseResult :=
  match PHARMACO_VARIANT_DB.lookup rsid with
  | some (gene, star, impact) =>
    appendVariant acc gene
      { rsid := rsid, chromosome := "chr" ++ chrom, position := pos,
        ref := ref, alt := alt, genotype := genotype, gene := gene,
        star_allele := star, impact := impact, quality := qual }
  | none => acc

/-- Strategy 3: the GENE-tag fallback, guarded by the
chromosome+position scan over the records collected so far. -/
def geneTagStep (st1 : VCFParseResult) (chrom : String) (pos : Int)
    (var_id ref alt genotype : String) (qual : Rat) (info : String) : VCFParseResult :=
  match _extract_info_field info "GENE" with
  | some g =>
    if g != "" && (SUPPORTED_GENES.map upperStr).contains (upperStr g) then
      if hasPosRecord st1.pharmacogene_variants chrom pos then st1
      else
        appendVariant st1 (upperStr g)
          { rsid := if var_id != "." then var_id else "chr" ++ chrom ++ ":" ++ intToStr pos,
            chromosome := "chr" ++ chrom, position := pos,
            ref := ref, alt := alt, genotype := genotype, gene := upperStr g,
            star_allele := (match _extract_info_field info "STAR" with
              | some s => if s != "" then s else "unknown"
              | none => "unknown"),
            impact := "unknown", quality := qual }
    else st1
  | none => st1

/-- The record-producing tail of the data-line loop body: catalog matches
for each collected rsID, then the GENE-tag fallback. -/
def addLineRecords (st : VCFParseResult) (chrom : String) (pos : Int)
    (var_id ref alt genotype : String) (qual : Rat) (info : String) : VCFParseResult :=
  geneTagStep ((collectRsids var_id info).foldl (rsStep chrom pos ref alt genotype qual) st)
    chrom pos var_id ref alt genotype qual info

/-- The field extraction on a data line that already passed the column
guard: integer position, then numeric quality, may each raise. -/
def processCols (st1 : VCFParseResult) (cols : List String) : Except String VCFParseResult :=
  match parseInt (cols.getD 1 "") with
  | none => .error ("ValueError: invalid literal for int() with base 10: " ++ cols.getD 1 "")
  | some pos =>
    match (if cols.getD 5 "" != "." then parseFloatQ (cols.getD 5 "") else some 0 : Option Rat) with
    | none => .error ("ValueError: could not convert string to float: " ++ cols.getD 5 "")
    | some qual =>
      .ok (addLineRecords st1 (replChr (cols.getD 0 "")) pos (cols.getD 2 "") (cols.getD 3 "")
        (cols.getD 4 "")
        (if cols.length ≥ 10 then
           _parse_genotype (cols.getD 9 "") (cols.getD 3 "") (cols.getD 4 "")
         else ".")
        qual (if cols.length > 7 then cols.getD 7 "" else ""))

/-- One iteration of the data-line loop; a `.error` is an uncaught Python
exception escaping `parse_vcf`. -/
def processDataLine (st : VCFParseResult) (line : String) : Except String VCFParseResult :=
  if pyStartsWith "#" line || stripStr line == "" then .ok st
  else if (splitStr '\t' (stripStr line)).length < 8 then .ok st
  else
    processCols { st with total_variants := st.total_variants + 1 }
      (splitStr '\t' (stripStr line))

/-- The data-line loop with exception propagation. -/
def processLines (st : VCFParseResult) : List String → Except String VCFParseResult
  | [] => .ok st
  | l :: rest =>
    match processDataLine st l with
    | .error e => .error e
    | .ok st2 => processLines st2 rest

/-- The sample id captured from the 10th column of the first `#CHROM`
line, when present. -/
def sampleOf (lines : List String) : Option String :=
  match lines.findIdx? (fun l => pyStartsWith "#CHROM" l) with
  | some i =>
    if (splitStr '\t' (stripStr (lines.getD i ""))).length ≥ 10 then
      some ((splitStr '\t' (stripStr (lines.getD i ""))).getD 9 "")
    else none
  | none => none

/-- The state entering the data-line loop: header errors/warnings (both
empty on this path) and the captured sample id. -/
def preState (lines : List String) : VCFParseResult :=
  { emptyResult with
    errors := (validate_vcf_header lines).2.1
    warnings := (validate_vcf_header lines).2.2
    sample_id := sampleOf lines }

/-- The post-pass warning when no pharmacogene variant was found. -/
def finalize (st3 : VCFParseResult) : VCFParseResult :=
  if st3.pharmacogene_variants.isEmpty then
    { st3 with
      warnings := st3.warnings ++ ["No pharmacogenomic variants detected in the uploaded VCF"] }
  else st3

/-- The data-line pass over everything after the `#CHROM` line. -/
def mainPass (lines : List String) : Except String VCFParseResult :=
  match processLines (preState lines)
      (lines.drop ((lines.findIdx? (fun l => pyStartsWith "#CHROM" l)).getD 0 + 1)) with
  | .error e => .error e
  | .ok st3 => .ok (finalize st3)

/-- Function `parse_vcf` behind the size guard: header validation, then the data
pass. -/
def afterSize (lines : List String) : Except String VCFParseResult :=
  if ¬ (validate_vcf_header lines).1 then
    .ok ({ emptyResult with
           is_valid := false
           errors := (validate_vcf_header lines).2.1
           warnings := (validate_vcf_header lines).2.2 })
  else mainPass lines

/-- Function `parse_vcf(content, max_size_mb)`. -/
def parse_vcf (content : String) (max_size_mb : Nat) : Except String VCFParseResult :=
  if utf8Len content > max_size_mb * 1048576 then
    .ok ({ emptyResult with
           is_valid := false
           errors := ["File size " ++ fmtMB1 (utf8Len content) ++ "MB exceeds " ++
                      natToStr max_size_mb ++ "MB limit"] })
  else afterSize (splitStr '\n' (stripStr content))

/-! ### The diplotype resolution service -/

/-- The table `ALLELE_FUNCTIONS`: gene → (star allele → functional category). -/
def ALLELE_FUNCTIONS : List (String × List (String × String)) := [
  ("CYP2D6", [
    ("*1",  "normal_function"),
    ("*2",  "normal_function"),
    ("*3",  "no_function"),
    ("*4",  "no_function"),
    ("*5",  "no_function"),
    ("*6",  "no_function"),
    ("*9",  "decreased_function"),
    ("*10", "decreased_function"),
    ("*17", "decreased_function"),
    ("*29", "decreased_function"),
    ("*41", "decreased_function")]),
  ("CYP2C19", [
    ("*1",  "normal_function"),
    ("*2",  "no_function"),
    ("*3",  "no_function"),
    ("*4",  "no_function"),
    ("*17", "increased_function")]),
  ("CYP2C9", [
    ("*1",  "normal_function"),
    ("*2",  "decreased_function"),
    ("*3",  "decreased_function"),
    ("*5",  "decreased_function"),
    ("*8",  "decreased_function"),
    ("*11", "decreased_function")]),
  ("SLCO1B1", [
    ("*1",  "normal_function"),
    ("*1A", "normal_function"),
    ("*1B", "normal_function"),
    ("*5",  "decreased_function"),
    ("*15", "decreased_function"),
    ("*17", "decreased_function")]),
  ("TPMT", [
    ("*1",  "normal_function"),
    ("*2",  "no_function"),
    ("*3A", "no_function"),
    ("*3B", "no_function"),
    ("*3C", "no_function")]),
  ("DPYD", [
    ("*1",   "normal_function"),
    ("*2A",  "no_function"),
    ("*13",  "no_function"),
    ("D949V", "decreased_function"),
    ("c.1129-5923C>G", "decreased_function")])]

/-- The table `FUNCTION_SCORES`: functional category → activity-score weight. -/
def FUNCTION_SCORES : List (String × Rat) := [
  ("normal_function",    1),
  ("decreased_function", mkRat 1 2),
  ("no_function",        0),
  ("increased_function", mkRat 3 2),
  ("uncertain_function", mkRat 1 2),
  ("unknown",            mkRat 1 2)]

/-- Python `FUNCTION_SCORES.get(f, 0.5)`. -/
def funcScore (f : String) : Rat := (FUNCTION_SCORES.lookup f).getD (mkRat 1 2)

/-- Function `_score_to_phenotype`: activity score to phenotype code. -/
def _score_to_phenotype (score : Rat) (gene : String) : String :=
  if gene == "CYP2C19" || gene == "CYP2D6" then
    if score ≥ mkRat 5 2 then "URM"
    else if score ≥ mkRat 7 4 then "RM"
    else if score ≥ 1 then "NM"
    else if score ≥ mkRat 1 2 then "IM"
    else "PM"
  else
    if score ≥ mkRat 3 2 then "NM"
    else if score ≥ 1 then "NM"
    else if score ≥ mkRat 1 2 then "IM"
    else "PM"

/-- The `DiplotypePhenotypeResult` dataclass. -/
structure DiplotypePhenotypeResult where
  gene : String
  allele1 : String
  allele2 : String
  diplotype : String
  allele1_function : String
  allele2_function : String
  activity_score : Rat
  phenotype : String
  detected_variants : List ParsedVariant
deriving DecidableEq, Repr

/-- The per-variant functional category:
`gene_alleles.get(star, v.impact if v.impact != "unknown" else "uncertain_function")`. -/
def alleleFunc (gene : String) (v : ParsedVariant) : String :=
  (((ALLELE_FUNCTIONS.lookup gene).getD []).lookup v.star_allele).getD
    (if v.impact != "unknown" then v.impact else "uncertain_function")

/-- The (star, function) pairs one variant contributes to
`detected_alleles`: twice when homozygous-alternate, once otherwise. -/
def alleleContribs (gene : String) (v : ParsedVariant) : List (String × String) :=
  let p := (v.star_allele, alleleFunc gene v)
  let gt_parts := splitStr '/' v.genotype
  let is_homozygous_alt :=
    gt_parts.length == 2 && gt_parts.getD 0 "" == gt_parts.getD 1 "" && gt_parts.getD 0 "" != "."
  if is_homozygous_alt then [p, p] else [p]

/-- Stable insertion into a list sorted by ascending `funcScore` of the
category (placed before all later elements of equal key). -/
def sevInsert (p : String × String) : List (String × String) → List (String × String)
  | [] => [p]
  | q :: rest => if funcScore p.2 ≤ funcScore q.2 then p :: q :: rest else q :: sevInsert p rest

/-- Python `list.sort(key=lambda x: FUNCTION_SCORES.get(x[1], 0.5))`: a
stable ascending sort (stable sorts agree on all inputs). -/
def sevSort : List (String × String) → List (String × String)
  | [] => []
  | p :: rest => sevInsert p (sevSort rest)

/-- Function `resolve_diplotype(gene, variants)`. -/
def resolve_diplotype (gene : String) (variants : List ParsedVariant) :
    DiplotypePhenotypeResult :=
  let detected := variants.foldl (fun acc v => acc ++ alleleContribs gene v) []
  let sel : String × String × String × String :=
    match detected with
    | [] => ("*1", "normal_function", "*1", "normal_function")
    | [(s, f)] => (s, f, "*1", "normal_function")
    | _ =>
      let sorted := sevSort detected
      ((sorted.getD 0 ("", "")).1, (sorted.getD 0 ("", "")).2,
       (sorted.getD 1 ("", "")).1, (sorted.getD 1 ("", "")).2)
  let activity_score := addQ (funcScore sel.2.1) (funcScore sel.2.2.2)
  { gene := gene
    allele1 := sel.1
    allele2 := sel.2.2.1
    diplotype := sel.1 ++ "/" ++ sel.2.2.1
    allele1_function := sel.2.1
    allele2_function := sel.2.2.2
    activity_score := activity_score
    phenotype := _score_to_phenotype activity_score gene
    detected_variants := variants }

/-! ### The risk classification service -/

/-- The `RiskLabel` enum from `schemas.py`. -/
inductive RiskLabel where
  | SAFE
  | ADJUST_DOSAGE
  | TOXIC
  | INEFFECTIVE
  | UNKNOWN
deriving DecidableEq, Repr

/-- The `Severity` enum from `schemas.py`. -/
inductive Severity where
  | NONE
  | LOW
  | MODERATE
  | HIGH
  | CRITICAL
deriving DecidableEq, Repr

/-- The `CPICRule` dataclass. -/
structure CPICRule where
  risk_label : RiskLabel
  severity : Severity
  confidence : Rat
  recommended_action : String
  dose_adjustment : String
  alternative_drugs : List String
  monitoring_required : Bool
  cpic_url : String
deriving DecidableEq, Repr

/-- The table `CPIC_RULES`: the static (drug, phenotype) → rule table. -/
def CPIC_RULES : List ((String × String) × CPICRule) := [
  (("CODEINE", "URM"),
   { risk_label := .TOXIC, severity := .CRITICAL, confidence := mkRat 95 100,
     recommended_action := "AVOID codeine. Ultra-rapid metabolism converts codeine to morphine at dangerously high levels. Use alternative analgesics.",
     dose_adjustment := "Avoid (do not dose)",
     alternative_drugs := ["Acetaminophen", "NSAIDs", "Morphine (with dose adjustment)"],
     monitoring_required := true,
     cpic_url := "https://cpicpgx.org/guidelines/guideline-for-codeine-and-cyp2d6/" }),
  (("CODEINE", "RM"),
   { risk_label := .ADJUST_DOSAGE, severity := .HIGH, confidence := mkRat 85 100,
     recommended_action := "Use codeine with caution; consider lower doses or alternative analgesics. Monitor for excessive sedation and respiratory depression.",
     dose_adjustment := "Consider lower dose (monitor closely)",
     alternative_drugs := ["Acetaminophen", "NSAIDs"],
     monitoring_required := true,
     cpic_url := "https://cpicpgx.org/guidelines/guideline-for-codeine-and-cyp2d6/" }),
  (("CODEINE", "NM"),
   { risk_label := .SAFE, severity := .NONE, confidence := mkRat 95 100,
     recommended_action := "Use codeine per standard prescribing. Normal CYP2D6 metabolism expected.",
     dose_adjustment := "", alternative_drugs := [], monitoring_required := false,
     cpic_url := "https://cpicpgx.org/guidelines/guideline-for-codeine-and-cyp2d6/" }),
  (("CODEINE", "IM"),
   { risk_label := .INEFFECTIVE, severity := .MODERATE, confidence := mkRat 80 100,
     recommended_action := "Reduced conversion of codeine to morphine. Analgesic effect may be diminished. Consider alternative analgesics.",
     dose_adjustment := "Avoid / switch (no reliable up-titration)",
     alternative_drugs := ["Morphine", "Oxycodone", "NSAIDs"],
     monitoring_required := true,
     cpic_url := "https://cpicpgx.org/guidelines/guideline-for-codeine-and-cyp2d6/" }),
  (("CODEINE", "PM"),
   { risk_label := .INEFFECTIVE, severity := .HIGH, confidence := mkRat 95 100,
     recommended_action := "AVOID codeine. Poor metabolizers cannot convert codeine to active morphine. No analgesic effect expected.",
     dose_adjustment := "Avoid (do not dose)",
     alternative_drugs := ["Morphine", "Oxycodone", "Hydromorphone"],
     monitoring_required := false,
     cpic_url := "https://cpicpgx.org/guidelines/guideline-for-codeine-and-cyp2d6/" }),
  (("WARFARIN", "NM"),
   { risk_label := .SAFE, severity := .NONE, confidence := mkRat 90 100,
     recommended_action := "Use standard warfarin dosing algorithm. Normal CYP2C9 metabolism.",
     dose_adjustment := "", alternative_drugs := [], monitoring_required := true,
     cpic_url := "https://cpicpgx.org/guidelines/guideline-for-warfarin-and-cyp2c9-and-vkorc1/" }),
  (("WARFARIN", "IM"),
   { risk_label := .ADJUST_DOSAGE, severity := .MODERATE, confidence := mkRat 85 100,
     recommended_action := "Reduce warfarin dose by 25-50%. Decreased CYP2C9 metabolism increases bleeding risk. Frequent INR monitoring required.",
     dose_adjustment := "Reduce dose 25–50%",
     alternative_drugs := ["DOACs (Rivaroxaban, Apixaban)"],
     monitoring_required := true,
     cpic_url := "https://cpicpgx.org/guidelines/guideline-for-warfarin-and-cyp2c9-and-vkorc1/" }),
  (("WARFARIN", "PM"),
   { risk_label := .TOXIC, severity := .CRITICAL, confidence := mkRat 95 100,
     recommended_action := "Significantly reduce warfarin dose (50-80% reduction) or use alternative anticoagulant. High bleeding risk with standard doses.",
     dose_adjustment := "Reduce dose 50–80% (or avoid)",
     alternative_drugs := ["Rivaroxaban", "Apixaban", "Edoxaban"],
     monitoring_required := true,
     cpic_url := "https://cpicpgx.org/guidelines/guideline-for-warfarin-and-cyp2c9-and-vkorc1/" }),
  (("CLOPIDOGREL", "URM"),
   { risk_label := .SAFE, severity := .NONE, confidence := mkRat 85 100,
     recommended_action := "Enhanced clopidogrel activation. Standard dosing is appropriate. May have slightly increased bleeding risk.",
     dose_adjustment := "", alternative_drugs := [], monitoring_required := false,
     cpic_url := "https://cpicpgx.org/guidelines/guideline-for-clopidogrel-and-cyp2c19/" }),
  (("CLOPIDOGREL", "RM"),
   { risk_label := .SAFE, severity := .NONE, confidence := mkRat 90 100,
     recommended_action := "Standard clopidogrel dosing. Normal to enhanced bioactivation.",
     dose_adjustment := "", alternative_drugs := [], monitoring_required := false,
     cpic_url := "https://cpicpgx.org/guidelines/guideline-for-clopidogrel-and-cyp2c19/" }),
  (("CLOPIDOGREL", "NM"),
   { risk_label := .SAFE, severity := .NONE, confidence := mkRat 95 100,
     recommended_action := "Use standard clopidogrel dosing. Normal CYP2C19-mediated bioactivation.",
     dose_adjustment := "", alternative_drugs := [], monitoring_required := false,
     cpic_url := "https://cpicpgx.org/guidelines/guideline-for-clopidogrel-and-cyp2c19/" }),
  (("CLOPIDOGREL", "IM"),
   { risk_label := .ADJUST_DOSAGE, severity := .HIGH, confidence := mkRat 90 100,
     recommended_action := "Consider alternative antiplatelet therapy. Reduced clopidogrel activation leads to diminished antiplatelet effect and increased cardiovascular risk.",
     dose_adjustment := "Avoid / switch (not dose escalation)",
     alternative_drugs := ["Prasugrel", "Ticagrelor"],
     monitoring_required := true,
     cpic_url := "https://cpicpgx.org/guidelines/guideline-for-clopidogrel-and-cyp2c19/" }),
  (("CLOPIDOGREL", "PM"),
   { risk_label := .INEFFECTIVE, severity := .CRITICAL, confidence := mkRat 95 100,
     recommended_action := "AVOID clopidogrel. Poor metabolizers cannot activate the prodrug. Use alternative antiplatelet agent.",
     dose_adjustment := "Avoid (do not dose)",
     alternative_drugs := ["Prasugrel", "Ticagrelor"],
     monitoring_required := true,
     cpic_url := "https://cpicpgx.org/guidelines/guideline-for-clopidogrel-and-cyp2c19/" }),
  (("SIMVASTATIN", "NM"),
   { risk_label := .SAFE, severity := .NONE, confidence := mkRat 90 100,
     recommended_action := "Use standard simvastatin dose. Normal SLCO1B1 transporter function.",
     dose_adjustment := "", alternative_drugs := [], monitoring_required := false,
     cpic_url := "https://cpicpgx.org/guidelines/guideline-for-simvastatin-and-slco1b1/" }),
  (("SIMVASTATIN", "IM"),
   { risk_label := .ADJUST_DOSAGE, severity := .MODERATE, confidence := mkRat 85 100,
     recommended_action := "Prescribe ≤20mg simvastatin or consider alternative statin. Decreased hepatic uptake increases myopathy risk.",
     dose_adjustment := "Max dose ≤20mg",
     alternative_drugs := ["Pravastatin", "Rosuvastatin"],
     monitoring_required := true,
     cpic_url := "https://cpicpgx.org/guidelines/guideline-for-simvastatin-and-slco1b1/" }),
  (("SIMVASTATIN", "PM"),
   { risk_label := .TOXIC, severity := .HIGH, confidence := mkRat 90 100,
     recommended_action := "AVOID simvastatin. Use alternative statin (pravastatin/rosuvastatin). High risk of statin-induced myopathy/rhabdomyolysis.",
     dose_adjustment := "Avoid (do not dose)",
     alternative_drugs := ["Pravastatin", "Rosuvastatin", "Fluvastatin"],
     monitoring_required := true,
     cpic_url := "https://cpicpgx.org/guidelines/guideline-for-simvastatin-and-slco1b1/" }),
  (("AZATHIOPRINE", "NM"),
   { risk_label := .SAFE, severity := .NONE, confidence := mkRat 90 100,
     recommended_action := "Use standard azathioprine dosing. Normal TPMT activity.",
     dose_adjustment := "", alternative_drugs := [], monitoring_required := true,
     cpic_url := "https://cpicpgx.org/guidelines/guideline-for-thiopurines-and-tpmt-and-nudt15/" }),
  (("AZATHIOPRINE", "IM"),
   { risk_label := .ADJUST_DOSAGE, severity := .HIGH, confidence := mkRat 90 100,
     recommended_action := "Reduce azathioprine dose by 30-70%. Intermediate TPMT activity increases risk of myelosuppression.",
     dose_adjustment := "Reduce dose 30–70%",
     alternative_drugs := ["Mycophenolate mofetil"],
     monitoring_required := true,
     cpic_url := "https://cpicpgx.org/guidelines/guideline-for-thiopurines-and-tpmt-and-nudt15/" }),
  (("AZATHIOPRINE", "PM"),
   { risk_label := .TOXIC, severity := .CRITICAL, confidence := mkRat 95 100,
     recommended_action := "AVOID azathioprine or reduce to 10% of standard dose. TPMT-deficient patients accumulate toxic thioguanine nucleotides causing severe myelosuppression.",
     dose_adjustment := "Avoid or reduce to ~10% of standard dose",
     alternative_drugs := ["Mycophenolate mofetil", "Alternative immunosuppressant"],
     monitoring_required := true,
     cpic_url := "https://cpicpgx.org/guidelines/guideline-for-thiopurines-and-tpmt-and-nudt15/" }),
  (("FLUOROURACIL", "NM"),
   { risk_label := .SAFE, severity := .NONE, confidence := mkRat 90 100,
     recommended_action := "Use standard 5-FU dosing. Normal DPD activity.",
     dose_adjustment := "", alternative_drugs := [], monitoring_required := true,
     cpic_url := "https://cpicpgx.org/guidelines/guideline-for-fluoropyrimidines-and-dpyd/" }),
  (("FLUOROURACIL", "IM"),
   { risk_label := .ADJUST_DOSAGE, severity := .HIGH, confidence := mkRat 90 100,
     recommended_action := "Reduce 5-FU dose by 25-50%. Intermediate DPD activity increases risk of severe toxicity.",
     dose_adjustment := "Reduce dose 25–50%",
     alternative_drugs := ["Consider non-fluoropyrimidine regimen"],
     monitoring_required := true,
     cpic_url := "https://cpicpgx.org/guidelines/guideline-for-fluoropyrimidines-and-dpyd/" }),
  (("FLUOROURACIL", "PM"),
   { risk_label := .TOXIC, severity := .CRITICAL, confidence := mkRat 95 100,
     recommended_action := "AVOID fluorouracil and capecitabine. DPD-deficient patients have potentially fatal toxicity with standard doses.",
     dose_adjustment := "Avoid (do not dose)",
     alternative_drugs := ["Non-fluoropyrimidine chemotherapy regimen"],
     monitoring_required := true,
     cpic_url := "https://cpicpgx.org/guidelines/guideline-for-fluoropyrimidines-and-dpyd/" })]

/-- Function `predict_risk(drug, phenotype)`: table lookup on the uppercased pair,
with the fixed Unknown fallback on a miss. -/
def predict_risk (drug phenotype : String) : CPICRule :=
  match CPIC_RULES.lookup (upperStr drug, upperStr phenotype) with
  | some rule => rule
  | none =>
    { risk_label := .UNKNOWN, severity := .LOW, confidence := mkRat 30 100,
      recommended_action := "No CPIC guideline match for " ++ drug ++ " with " ++ phenotype ++
        " phenotype. Clinical judgment required.",
      dose_adjustment := "", alternative_drugs := [], monitoring_required := true,
      cpic_url := "https://cpicpgx.org/guidelines/" }

/-! ### Helpers for stating results -/

/-- The pharmacogene-variant list of a parse outcome (empty on an escaped
exception). -/
def pvListOf (e : Except String VCFParseResult) : List ParsedVariant :=
  match e with
  | .ok r => r.pharmacogene_variants
  | .error _ => []

/-- The error list of a parse outcome (empty on an escaped exception). -/
def errorsOf (e : Except String VCFParseResult) : List String :=
  match e with
  | .ok r => r.errors
  | .error _ => []

/-- Placeholder record for `List.getD` indexing in concrete statements. -/
def pvDefault : ParsedVariant :=
  { rsid := "", chromosome := "", position := 0, ref := "", alt := "",
    genotype := "", gene := "", star_allele := "", impact := "", quality := 0 }

/-! ### Concrete inputs used by the claims -/

/-- End-to-end scenario 2 input: GENE-tag fallback row for TPMT. -/
def vcf1 : String :=
  "##fileformat=VCFv4.2\n#CHROM\tPOS\tID\tREF\tALT\tQUAL\tFILTER\tINFO\tFORMAT\tSAMPLE1\n6\t18130918\t.\tA\tG\t.\tPASS\tGENE=TPMT;STAR=*2\tGT\t0/1"

/-- The single record `parse_vcf vcf1` extracts. -/
def pv1 : ParsedVariant :=
  { rsid := "chr6:18130918", chromosome := "chr6", position := 18130918, ref := "A", alt := "G",
    genotype := "A/G", gene := "TPMT", star_allele := "*2", impact := "unknown", quality := 0 }

/-- An input whose single data line carries two catalog rsIDs in its ID
column, hence two records at one chromosome+position. -/
def vcf3 : String :=
  "##fileformat=VCFv4.2\n#CHROM\tPOS\tID\tREF\tALT\tQUAL\tFILTER\tINFO\n22\t42522613\trs16947;rs1135840\tG\tA\t.\tPASS\t."

/-- An input whose data line has a non-integer position field. -/
def vcf4 : String :=
  "##fileformat=VCFv4.2\n#CHROM\tPOS\tID\tREF\tALT\tQUAL\tFILTER\tINFO\n22\tabc\t.\tG\tA\t.\tPASS\t."

/-- An input whose data line has a quality field that is neither `.` nor
a number. -/
def vcf4b : String :=
  "##fileformat=VCFv4.2\n#CHROM\tPOS\tID\tREF\tALT\tQUAL\tFILTER\tINFO\n22\t42522613\t.\tG\tA\txyz\tPASS\t."

/-- A whitespace-only input larger than the size limit. -/
def bigWs : String := ⟨List.replicate 5242881 ' '⟩

/-- Relation between records: a later GENE-tag fallback record
(recognizable by impact `unknown`, which no catalog entry carries) never
shares chromosome+position with an earlier record. -/
def freshAt (a b : ParsedVariant) : Prop :=
  b.impact = "unknown" → ¬(a.chromosome = b.chromosome ∧ a.position = b.position)

/-! ### General lemmas -/

/-- The kernel-reducible addition agrees with `Rat.add`. -/
theorem addQ_eq (a b : Rat) : addQ a b = a + b := by
  unfold addQ
  rw [Rat.mkRat_eq_div]
  push_cast
  rw [div_eq_iff (by positivity : ((a.den : ℚ) * (b.den : ℚ)) ≠ 0)]
  have h1 : (a.num : ℚ) = a * a.den :=
    (div_eq_iff (by positivity : (a.den : ℚ) ≠ 0)).mp (Rat.num_div_den a)
  have h2 : (b.num : ℚ) = b * b.den :=
    (div_eq_iff (by positivity : (b.den : ℚ) ≠ 0)).mp (Rat.num_div_den b)
  rw [h1, h2]; ring

/-! ### C1 -/

/-- C1, counterexample.  On the scenario-2 input the extractor does yield
exactly the claimed GENE-tag fallback record (star `*2`, impact
`unknown`), but the resolver finds `*2` in the TPMT row of
`ALLELE_FUNCTIONS` and assigns `no_function`, not `uncertain_function`,
so the activity score is 1, not 1.5. -/
theorem claim1_counterexample :
    pvListOf (parse_vcf vcf1 5) = [pv1] ∧
    (resolve_diplotype "TPMT" [pv1]).allele1_function ≠ "uncertain_function" ∧
    (resolve_diplotype "TPMT" [pv1]).activity_score ≠ mkRat 3 2 := by
  decide

/-- C1, amended.  Scenario 2 end to end as the code computes it: one
GENE-tag fallback record with star `*2` and impact `unknown`, whose
function is taken from the allele table (`no_function`, weight 0) and
paired with wild-type `*1` (weight 1), activity score 1.0, phenotype NM. -/
theorem claim1_scenario2 :
    parse_vcf vcf1 5 = Except.ok
      ({ is_valid := true, errors := [], warnings := [], sample_id := some "SAMPLE1",
         total_variants := 1, pharmacogene_variants := [pv1],
         gene_variants := [("TPMT", [pv1])] }) ∧
    resolve_diplotype "TPMT" [pv1] =
      { gene := "TPMT", allele1 := "*2", allele2 := "*1", diplotype := "*2/*1",
        allele1_function := "no_function", allele2_function := "normal_function",
        activity_score := 1, phenotype := "NM", detected_variants := [pv1] } := by
  decide

/-! ### C2 -/

/-- C2.  The source computes the phased/unphased separator but joins the
resolved alleles with `"/"` unconditionally, so a phased `1|0` genotype
comes out as `G/A`, not `G|A`: the source separator is not preserved. -/
theorem claim2_separator_dropped :
    _parse_genotype "1|0" "A" "G" = "G/A" ∧ _parse_genotype "1|0" "A" "G" ≠ "G|A" := by
  decide

/-! ### C4 -/

/-- C4.  A non-integer position (or non-numeric quality) on a well-formed
data line is not converted into a per-file error: the exception escapes
`parse_vcf` uncaught (modelled as `Except.error`). -/
theorem claim4_numeric_fields_crash :
    parse_vcf vcf4 5 = Except.error "ValueError: invalid literal for int() with base 10: abc" ∧
    parse_vcf vcf4b 5 = Except.error "ValueError: could not convert string to float: xyz" := by
  decide

/-! ### C8 -/

/-- C8.  For every (drug, phenotype) pair whose uppercased forms are not a
key of `CPIC_RULES`, `predict_risk` returns the fixed Unknown fallback
rule — never an error. -/
theorem claim8_fallback_totality (drug phenotype : String)
    (h : CPIC_RULES.lookup (upperStr drug, upperStr phenotype) = none) :
    predict_risk drug phenotype =
      { risk_label := .UNKNOWN, severity := .LOW, confidence := mkRat 30 100,
        recommended_action := "No CPIC guideline match for " ++ drug ++ " with " ++ phenotype ++
          " phenotype. Clinical judgment required.",
        dose_adjustment := "", alternative_drugs := [], monitoring_required := true,
        cpic_url := "https://cpicpgx.org/guidelines/" } := by
  unfold predict_risk
  rw [h]

/-- C8, witness at `("CODEINE", "ZZ")`. -/
theorem claim8_witness :
    CPIC_RULES.lookup (upperStr "CODEINE", upperStr "ZZ") = none ∧
    predict_risk "CODEINE" "ZZ" =
      { risk_label := .UNKNOWN, severity := .LOW, confidence := mkRat 30 100,
        recommended_action := "No CPIC guideline match for CODEINE with ZZ phenotype. Clinical judgment required.",
        dose_adjustment := "", alternative_drugs := [], monitoring_required := true,
        cpic_url := "https://cpicpgx.org/guidelines/" } :=
  ⟨by decide, claim8_fallback_totality "CODEINE" "ZZ" (by decide)⟩

/-! ### C7 -/

/-- C7.  Resolving any gene against an empty variant list always produces
a result (`resolve_diplotype` is total): diplotype `*1/*1`, both
functions `normal_function`, activity score 2.0, and phenotype NM for
the four standard genes. -/
theorem claim7_wildtype_default (gene : String) :
    resolve_diplotype gene [] =
      { gene := gene, allele1 := "*1", allele2 := "*1", diplotype := "*1/*1",
        allele1_function := "normal_function", allele2_function := "normal_function",
        activity_score := 2, phenotype := _score_to_phenotype 2 gene,
        detected_variants := [] } ∧
    (gene = "CYP2C9" ∨ gene = "SLCO1B1" ∨ gene = "TPMT" ∨ gene = "DPYD" →
      (resolve_diplotype gene []).phenotype = "NM") := by
  have h2 : addQ (funcScore "normal_function") (funcScore "normal_function") = 2 := by decide
  have hres : resolve_diplotype gene [] =
      { gene := gene, allele1 := "*1", allele2 := "*1", diplotype := "*1/*1",
        allele1_function := "normal_function", allele2_function := "normal_function",
        activity_score := addQ (funcScore "normal_function") (funcScore "normal_function"),
        phenotype := _score_to_phenotype
          (addQ (funcScore "normal_function") (funcScore "normal_function")) gene,
        detected_variants := [] } := rfl
  rw [h2] at hres
  exact ⟨hres, by rw [hres]; rintro (h | h | h | h) <;> subst h <;> decide⟩

/-- C7, witness at TPMT. -/
theorem claim7_witness :
    resolve_diplotype "TPMT" [] =
      { gene := "TPMT", allele1 := "*1", allele2 := "*1", diplotype := "*1/*1",
        allele1_function := "normal_function", allele2_function := "normal_function",
        activity_score := 2, phenotype := _score_to_phenotype 2 "TPMT",
        detected_variants := [] } ∧
    (resolve_diplotype "TPMT" []).phenotype = "NM" :=
  ⟨(claim7_wildtype_default "TPMT").1,
   (claim7_wildtype_default "TPMT").2 (Or.inr (Or.inr (Or.inl rfl)))⟩

/-! ### C6 -/

/-- C6.  The phenotype is a pure function of (score, gene): for CYP2D6 and
CYP2C19 the URM/RM/NM/IM/PM ladder with cuts 2.5/1.75/1.0/0.5, for every
other gene the NM/IM/PM ladder with cuts 1.0/0.5 — in particular scores
1.0 and 1.5 both give NM for the non-increased-function family. -/
theorem claim6_phenotype_thresholds (score : Rat) (gene : String) :
    (gene = "CYP2D6" ∨ gene = "CYP2C19" →
      _score_to_phenotype score gene =
        (if score ≥ mkRat 5 2 then "URM" else if score ≥ mkRat 7 4 then "RM"
         else if score ≥ 1 then "NM" else if score ≥ mkRat 1 2 then "IM" else "PM")) ∧
    (gene ≠ "CYP2D6" → gene ≠ "CYP2C19" →
      _score_to_phenotype score gene =
        (if score ≥ 1 then "NM" else if score ≥ mkRat 1 2 then "IM" else "PM")) ∧
    (gene ≠ "CYP2D6" → gene ≠ "CYP2C19" →
      _score_to_phenotype 1 gene = "NM" ∧ _score_to_phenotype (mkRat 3 2) gene = "NM") := by
  have key : ∀ s : Rat, gene ≠ "CYP2D6" → gene ≠ "CYP2C19" →
      _score_to_phenotype s gene =
        (if s ≥ 1 then "NM" else if s ≥ mkRat 1 2 then "IM" else "PM") := by
    intro s h1 h2
    unfold _score_to_phenotype
    have hb : (gene == "CYP2C19" || gene == "CYP2D6") = false := by simp [h1, h2]
    rw [hb]
    simp only [Bool.false_eq_true, if_false]
    by_cases hc : s ≥ mkRat 3 2
    · rw [if_pos hc, if_pos (le_trans (by decide : (1 : Rat) ≤ mkRat 3 2) hc)]
    · rw [if_neg hc]
  refine ⟨?_, fun h1 h2 => key score h1 h2, fun h1 h2 => ⟨?_, ?_⟩⟩
  · rintro (h | h) <;> subst h <;> rfl
  · rw [key 1 h1 h2]; decide
  · rw [key (mkRat 3 2) h1 h2]; decide

/-- C6, witness: the increased-function ladder at CYP2D6 with score 2 and
the standard ladder at TPMT with score 1.5. -/
theorem claim6_witness :
    _score_to_phenotype 2 "CYP2D6" =
      (if (2 : Rat) ≥ mkRat 5 2 then "URM" else if (2 : Rat) ≥ mkRat 7 4 then "RM"
       else if (2 : Rat) ≥ 1 then "NM" else if (2 : Rat) ≥ mkRat 1 2 then "IM" else "PM") ∧
    _score_to_phenotype (mkRat 3 2) "TPMT" = "NM" :=
  ⟨(claim6_phenotype_thresholds 2 "CYP2D6").1 (Or.inl rfl),
   ((claim6_phenotype_thresholds (mkRat 3 2) "TPMT").2.2 (by decide) (by decide)).2⟩

/-! ### C9 -/

/-- C9.  The resolver takes the functional category of a variant from
`ALLELE_FUNCTIONS` first; the impact annotation on the record itself is used only
when the star allele is absent from the table row of the gene (with
`uncertain_function` substituted for `unknown`).  In particular the
GENE-tag fallback record of scenario 2 (impact `unknown`, star `*2`,
gene TPMT) receives `no_function` from the table. -/
theorem claim9_table_priority (gene : String) (v : ParsedVariant) :
    (∀ f, ((ALLELE_FUNCTIONS.lookup gene).getD []).lookup v.star_allele = some f →
      alleleFunc gene v = f) ∧
    (((ALLELE_FUNCTIONS.lookup gene).getD []).lookup v.star_allele = none →
      alleleFunc gene v = (if v.impact = "unknown" then "uncertain_function" else v.impact)) ∧
    (alleleFunc "TPMT" pv1 = "no_function" ∧
     (resolve_diplotype "TPMT" [pv1]).allele1_function = "no_function") := by
  refine ⟨?_, ?_, by decide⟩
  · intro f h
    unfold alleleFunc
    rw [h, Option.getD_some]
  · intro h
    unfold alleleFunc
    rw [h]
    by_cases h2 : v.impact = "unknown" <;> simp [h2]

/-- C9, witness: a table hit (CYP2D6 `*4`) and a table miss (star `*99`,
impact kept). -/
theorem claim9_witness :
    alleleFunc "CYP2D6" ({ pvDefault with star_allele := "*4", impact := "unknown" }) =
      "no_function" ∧
    alleleFunc "CYP2D6" ({ pvDefault with star_allele := "*99", impact := "decreased_function" }) =
      "decreased_function" :=
  ⟨(claim9_table_priority "CYP2D6"
      ({ pvDefault with star_allele := "*4", impact := "unknown" })).1 "no_function" (by decide),
   ((claim9_table_priority "CYP2D6"
      ({ pvDefault with star_allele := "*99", impact := "decreased_function" })).2.1
        (by decide)).trans (by decide)⟩

/-! ### C5 -/

/-- Sorting a two-element list with equal elements is the identity. -/
theorem sevSort_pair (p : String × String) : sevSort [p, p] = [p, p] := by
  simp [sevSort, sevInsert]

/-- Shape of the resolver result when the contribution pass yields the
same pair twice. -/
theorem resolve_pair (gene : String) (vs : List ParsedVariant) (p : String × String)
    (h : vs.foldl (fun acc v => acc ++ alleleContribs gene v) [] = [p, p]) :
    resolve_diplotype gene vs =
      { gene := gene, allele1 := p.1, allele2 := p.1, diplotype := p.1 ++ "/" ++ p.1,
        allele1_function := p.2, allele2_function := p.2,
        activity_score := addQ (funcScore p.2) (funcScore p.2),
        phenotype := _score_to_phenotype (addQ (funcScore p.2) (funcScore p.2)) gene,
        detected_variants := vs } := by
  obtain ⟨s, f⟩ := p
  unfold resolve_diplotype
  rw [h]
  simp [sevSort_pair]

/-- C5.  A two-part genotype `X/X` with `X ≠ "."` contributes its
(star, function) pair twice — so a lone homozygous variant occupies both
diplotype positions and its weight is counted twice in the activity
score — while any other two-part genotype contributes the pair exactly
once. -/
theorem claim5_zygosity (gene : String) (v : ParsedVariant) :
    (∀ x, splitStr '/' v.genotype = [x, x] → x ≠ "." →
      alleleContribs gene v =
        [(v.star_allele, alleleFunc gene v), (v.star_allele, alleleFunc gene v)] ∧
      (resolve_diplotype gene [v]).allele1 = v.star_allele ∧
      (resolve_diplotype gene [v]).allele2 = v.star_allele ∧
      (resolve_diplotype gene [v]).activity_score =
        funcScore (alleleFunc gene v) + funcScore (alleleFunc gene v)) ∧
    (∀ x y, splitStr '/' v.genotype = [x, y] → x ≠ y ∨ x = "." →
      alleleContribs gene v = [(v.star_allele, alleleFunc gene v)]) := by
  constructor
  · intro x h hx
    have hcontrib : alleleContribs gene v =
        [(v.star_allele, alleleFunc gene v), (v.star_allele, alleleFunc gene v)] := by
      simp [alleleContribs, h, hx]
    have hdet : List.foldl (fun acc w => acc ++ alleleContribs gene w) [] [v] =
        [(v.star_allele, alleleFunc gene v), (v.star_allele, alleleFunc gene v)] := by
      simp [hcontrib]
    have hres := resolve_pair gene [v] (v.star_allele, alleleFunc gene v) hdet
    refine ⟨hcontrib, ?_, ?_, ?_⟩ <;> rw [hres]
    exact addQ_eq _ _
  · intro x y h hxy
    rcases hxy with hne | hdot
    · simp [alleleContribs, h, hne]
    · subst hdot
      simp [alleleContribs, h]

/-- C5, witness: a homozygous `G/G` TPMT record counted twice, and the
heterozygous scenario-2 record counted once. -/
theorem claim5_witness :
    alleleContribs "TPMT" ({ pv1 with genotype := "G/G" }) =
      [("*2", "no_function"), ("*2", "no_function")] ∧
    (resolve_diplotype "TPMT" [{ pv1 with genotype := "G/G" }]).allele1 = "*2" ∧
    (resolve_diplotype "TPMT" [{ pv1 with genotype := "G/G" }]).allele2 = "*2" ∧
    alleleContribs "TPMT" pv1 = [("*2", "no_function")] := by
  refine ⟨?_, ?_, ?_, ?_⟩
  · exact (((claim5_zygosity "TPMT" ({ pv1 with genotype := "G/G" })).1 "G" (by decide)
      (by decide)).1).trans (by decide)
  · exact (((claim5_zygosity "TPMT" ({ pv1 with genotype := "G/G" })).1 "G" (by decide)
      (by decide)).2.1).trans (by decide)
  · exact (((claim5_zygosity "TPMT" ({ pv1 with genotype := "G/G" })).1 "G" (by decide)
      (by decide)).2.2.1).trans (by decide)
  · exact ((claim5_zygosity "TPMT" pv1).2 "A" "G" (by decide) (Or.inl (by decide))).trans
      (by decide)

/-! ### C3 -/

/-- A successful association-list lookup comes from a member pair. -/
theorem lookup_mem {α β : Type} [BEq α] [LawfulBEq α] {k : α} {v : β} :
    ∀ {l : List (α × β)}, l.lookup k = some v → (k, v) ∈ l := by
  intro l
  induction l with
  | nil => intro h; simp [List.lookup] at h
  | cons e rest ih =>
    intro h
    obtain ⟨ek, ev⟩ := e
    rw [List.lookup] at h
    cases hbeq : k == ek with
    | true =>
      rw [hbeq] at h
      obtain rfl : ev = v := by simpa using h
      exact (eq_of_beq hbeq) ▸ List.mem_cons_self _ _
    | false =>
      rw [hbeq] at h
      exact List.mem_cons_of_mem _ (ih h)

/-- No catalog entry carries impact `unknown`. -/
theorem db_impact_ne_unknown {rs g s imp : String}
    (h : PHARMACO_VARIANT_DB.lookup rs = some (g, s, imp)) : imp ≠ "unknown" := by
  have hall : ∀ e ∈ PHARMACO_VARIANT_DB, e.2.2.2 ≠ "unknown" := by decide
  exact hall (rs, (g, s, imp)) (lookup_mem h)

/-- Appending one record behind a `Pairwise` list just needs the relation
toward the new record. -/
theorem pairwise_snoc {l : List ParsedVariant} {pv : ParsedVariant}
    (hl : l.Pairwise freshAt) (h : ∀ a ∈ l, freshAt a pv) :
    (l ++ [pv]).Pairwise freshAt :=
  List.pairwise_append.mpr ⟨hl, List.pairwise_singleton _ _, fun a ha b hb => by
    rw [List.mem_singleton] at hb
    subst hb
    exact h a ha⟩

/-- Lemma: `appendVariant` appends to the flat list. -/
theorem appendVariant_pharm (st : VCFParseResult) (gene : String) (pv : ParsedVariant) :
    (appendVariant st gene pv).pharmacogene_variants = st.pharmacogene_variants ++ [pv] := rfl

/-- Records produced by the rsID strategies never carry impact `unknown`,
so one catalog step preserves the invariant. -/
theorem rsStep_pairwise {acc : VCFParseResult}
    (h : acc.pharmacogene_variants.Pairwise freshAt)
    (chrom : String) (pos : Int) (ref alt genotype : String) (qual : Rat) (rsid : String) :
    (rsStep chrom pos ref alt genotype qual acc rsid).pharmacogene_variants.Pairwise freshAt := by
  unfold rsStep
  cases hdb : PHARMACO_VARIANT_DB.lookup rsid with
  | none => exact h
  | some t =>
    obtain ⟨g, s, imp⟩ := t
    rw [appendVariant_pharm]
    exact pairwise_snoc h (fun a _ him => absurd him (db_impact_ne_unknown hdb))

/-- The whole rsID loop preserves the invariant. -/
theorem rsFold_pairwise (chrom : String) (pos : Int) (ref alt genotype : String) (qual : Rat) :
    ∀ (lst : List String) (acc : VCFParseResult),
      acc.pharmacogene_variants.Pairwise freshAt →
      (lst.foldl (rsStep chrom pos ref alt genotype qual) acc).pharmacogene_variants.Pairwise
        freshAt := by
  intro lst
  induction lst with
  | nil => intro acc h; exact h
  | cons r rest ih =>
    intro acc h
    exact ih _ (rsStep_pairwise h chrom pos ref alt genotype qual r)

/-- When the linear scan finds no record at (chromosome, position), the
new fallback record is fresh toward every existing one. -/
theorem hasPos_false_fresh {vs : List ParsedVariant} {chrom : String} {pos : Int}
    {pv : ParsedVariant} (hscan : hasPosRecord vs chrom pos = false)
    (hc : pv.chromosome = "chr" ++ chrom) (hp : pv.position = pos) :
    ∀ a ∈ vs, freshAt a pv := by
  intro a ha _ hpair
  unfold hasPosRecord at hscan
  rw [List.any_eq_false] at hscan
  exact hscan a ha (by
    rw [Bool.and_eq_true, beq_iff_eq, beq_iff_eq]
    exact ⟨hpair.2.trans hp, hpair.1.trans hc⟩)

/-- The GENE-tag fallback step preserves the invariant: its record is
appended only behind the failed position scan. -/
theorem geneTagStep_pairwise {st1 : VCFParseResult}
    (h1 : st1.pharmacogene_variants.Pairwise freshAt)
    (chrom : String) (pos : Int) (var_id ref alt genotype : String) (qual : Rat)
    (info : String) :
    (geneTagStep st1 chrom pos var_id ref alt genotype qual
      info).pharmacogene_variants.Pairwise freshAt := by
  unfold geneTagStep
  cases hgi : _extract_info_field info "GENE" with
  | none => exact h1
  | some g =>
    dsimp only
    by_cases hok : (g != "" && (SUPPORTED_GENES.map upperStr).contains (upperStr g)) = true
    · rw [if_pos hok]
      by_cases hscan : hasPosRecord st1.pharmacogene_variants chrom pos = true
      · rw [if_pos hscan]; exact h1
      · rw [if_neg hscan, appendVariant_pharm]
        exact pairwise_snoc h1 (hasPos_false_fresh (by simpa using hscan) rfl rfl)
    · rw [if_neg hok]; exact h1

/-- The whole data-line record pass preserves the invariant. -/
theorem addLineRecords_pairwise {st : VCFParseResult}
    (h : st.pharmacogene_variants.Pairwise freshAt)
    (chrom : String) (pos : Int) (var_id ref alt genotype : String) (qual : Rat)
    (info : String) :
    (addLineRecords st chrom pos var_id ref alt genotype qual
      info).pharmacogene_variants.Pairwise freshAt :=
  geneTagStep_pairwise
    (rsFold_pairwise chrom pos ref alt genotype qual (collectRsids var_id info) st h)
    chrom pos var_id ref alt genotype qual info

/-- The numeric-field stage keeps the invariant on success. -/
theorem processCols_pairwise {st1 st2 : VCFParseResult} {cols : List String}
    (h : st1.pharmacogene_variants.Pairwise freshAt)
    (hp : processCols st1 cols = .ok st2) :
    st2.pharmacogene_variants.Pairwise freshAt := by
  unfold processCols at hp
  cases hpos : parseInt (cols.getD 1 "") with
  | none => rw [hpos] at hp; cases hp
  | some pos =>
    rw [hpos] at hp
    cases hq : (if cols.getD 5 "" != "." then parseFloatQ (cols.getD 5 "") else some 0 :
        Option Rat) with
    | none => rw [hq] at hp; cases hp
    | some qual =>
      rw [hq] at hp
      cases hp
      exact addLineRecords_pairwise h _ _ _ _ _ _ _ _

/-- A data-line step keeps the invariant on success. -/
theorem processDataLine_pairwise {st st2 : VCFParseResult} {line : String}
    (h : st.pharmacogene_variants.Pairwise freshAt)
    (hp : processDataLine st line = .ok st2) :
    st2.pharmacogene_variants.Pairwise freshAt := by
  unfold processDataLine at hp
  by_cases h1 : (pyStartsWith "#" line || stripStr line == "") = true
  · rw [if_pos h1] at hp
    cases hp
    exact h
  · rw [if_neg h1] at hp
    by_cases h2 : (splitStr '\t' (stripStr line)).length < 8
    · rw [if_pos h2] at hp
      cases hp
      exact h
    · rw [if_neg h2] at hp
      exact @processCols_pairwise { st with total_variants := st.total_variants + 1 } st2
        (splitStr '\t' (stripStr line)) h hp

/-- The data-line loop keeps the invariant on success. -/
theorem processLines_pairwise :
    ∀ (lines : List String) (st st2 : VCFParseResult),
      st.pharmacogene_variants.Pairwise freshAt → processLines st lines = .ok st2 →
      st2.pharmacogene_variants.Pairwise freshAt := by
  intro lines
  induction lines with
  | nil =>
    intro st st2 h hp
    cases hp
    exact h
  | cons l rest ih =>
    intro st st2 h hp
    unfold processLines at hp
    cases hpd : processDataLine st l with
    | error e => rw [hpd] at hp; cases hp
    | ok stm => rw [hpd] at hp; exact ih _ _ (processDataLine_pairwise h hpd) hp

/-- C3, amended.  Duplicate suppression by exact chromosome+position
guards only the GENE-tag fallback strategy: in any parse outcome, a
record with impact `unknown` (exactly the GENE-tag fallback records)
differs in chromosome+position from every record before it, while
rsID-strategy records are appended without any such check. -/
theorem claim3_genetag_dedup_only (content : String) (max_size_mb : Nat) :
    (pvListOf (parse_vcf content max_size_mb)).Pairwise freshAt := by
  have hfin : ∀ st : VCFParseResult,
      (finalize st).pharmacogene_variants = st.pharmacogene_variants := by
    intro st; unfold finalize; split <;> rfl
  have hmain : ∀ lines : List String, (pvListOf (mainPass lines)).Pairwise freshAt := by
    intro lines
    unfold mainPass
    cases hpl : processLines (preState lines)
        (lines.drop ((lines.findIdx? (fun l => pyStartsWith "#CHROM" l)).getD 0 + 1)) with
    | error e => exact List.Pairwise.nil
    | ok st3 =>
      have h3 := processLines_pairwise _ _ _ (List.Pairwise.nil :
        (preState lines).pharmacogene_variants.Pairwise freshAt) hpl
      simpa [pvListOf, hfin st3] using h3
  unfold parse_vcf
  split
  · exact List.Pairwise.nil
  · unfold afterSize
    split
    · exact List.Pairwise.nil
    · exact hmain _

/-- C3, counterexample.  A single data line whose ID column carries two
catalog rsIDs yields two distinct records with the same chromosome and
the same position: the rsID strategies do not suppress by
chromosome+position. -/
theorem claim3_counterexample :
    (pvListOf (parse_vcf vcf3 5)).length = 2 ∧
    ((pvListOf (parse_vcf vcf3 5)).getD 0 pvDefault).chromosome =
      ((pvListOf (parse_vcf vcf3 5)).getD 1 pvDefault).chromosome ∧
    ((pvListOf (parse_vcf vcf3 5)).getD 0 pvDefault).position =
      ((pvListOf (parse_vcf vcf3 5)).getD 1 pvDefault).position ∧
    ((pvListOf (parse_vcf vcf3 5)).getD 0 pvDefault) ≠
      ((pvListOf (parse_vcf vcf3 5)).getD 1 pvDefault) := by
  decide

/-! ### C10 -/

/-- Splitting never yields an empty list of pieces. -/
theorem splitCh_ne_nil (c : Char) (l : List Char) : splitCh c l ≠ [] := by
  cases l with
  | nil => simp [splitCh]
  | cons x xs =>
    unfold splitCh
    by_cases hx : x = c
    · simp [hx]
    · simp only [hx, if_false]
      cases hr : splitCh c xs <;> simp

/-- Splitting a string never yields an empty list of lines. -/
theorem splitStr_ne_nil (c : Char) (s : String) : splitStr c s ≠ [] := by
  unfold splitStr
  intro h
  exact splitCh_ne_nil c s.data (List.map_eq_nil_iff.mp h)

/-- C10, amended.  For empty or whitespace-only input within the size
limit, `parse_vcf` reports exactly the missing-`##fileformat` error with
no variants; and the `Empty VCF file` branch of `validate_vcf_header` is
unreachable from `parse_vcf`, because the split of the stripped content
always yields at least one (possibly empty) line and on any non-empty
line list that branch is never taken. -/
theorem claim10_missing_header :
    (∀ content : String, pyStrip content.data = [] → utf8Len content ≤ 5 * 1048576 →
      parse_vcf content 5 = Except.ok
        ({ is_valid := false, errors := ["Invalid VCF file: missing ##fileformat header"],
           warnings := [], sample_id := none, total_variants := 0,
           pharmacogene_variants := [], gene_variants := [] })) ∧
    (∀ content : String, splitStr '\n' (stripStr content) ≠ []) ∧
    (∀ lines : List String, lines ≠ [] →
      "Empty VCF file" ∉ (validate_vcf_header lines).2.1) := by
  refine ⟨?_, fun content => splitStr_ne_nil '\n' (stripStr content), ?_⟩
  · intro content h hsz
    have hl : stripStr content = "" := by
      unfold stripStr
      rw [h]
    unfold parse_vcf
    rw [if_neg (by omega : ¬ utf8Len content > 5 * 1048576), hl]
    decide
  · intro lines hne
    cases lines with
    | nil => exact absurd rfl hne
    | cons first rest =>
      unfold validate_vcf_header
      by_cases hsw : pyStartsWith "##fileformat=VCF" (stripStr first) = true
      · simp only [hsw, not_true, if_false, ite_false, ite_true, if_true]
        cases hf : (first :: rest).find? (fun l => pyStartsWith "#CHROM" l) with
        | some cl => simp [hf]
        | none => simp [hf]
      · simp only [hsw, not_false_iff, if_true, ite_true]
        simp

/-- C10, witness: the empty input, and the singleton empty-line list. -/
theorem claim10_witness :
    parse_vcf "" 5 = Except.ok
      ({ is_valid := false, errors := ["Invalid VCF file: missing ##fileformat header"],
         warnings := [], sample_id := none, total_variants := 0,
         pharmacogene_variants := [], gene_variants := [] }) ∧
    splitStr '\n' (stripStr "") ≠ [] ∧
    "Empty VCF file" ∉ (validate_vcf_header [""]).2.1 :=
  ⟨claim10_missing_header.1 "" (by decide) (by decide),
   claim10_missing_header.2.1 "",
   claim10_missing_header.2.2 [""] (by decide)⟩

/-- Dropping whitespace from a run of blanks leaves nothing. -/
theorem dropWhile_ws_replicate (n : Nat) :
    (List.replicate n ' ').dropWhile Char.isWhitespace = [] := by
  induction n with
  | zero => rfl
  | succ n ih => rw [List.replicate_succ, List.dropWhile_cons]; simp [ih]

/-- Stripping a run of blanks leaves the empty string. -/
theorem pyStrip_replicate (n : Nat) : pyStrip (List.replicate n ' ') = [] := by
  unfold pyStrip
  rw [dropWhile_ws_replicate]
  rfl

/-- A run of blanks is one UTF-8 byte per character. -/
theorem utf8Len_replicate (n : Nat) : utf8Len ⟨List.replicate n ' '⟩ = n := by
  have key : ∀ (m acc : Nat),
      List.foldl (fun a c => a + charBytes c) acc (List.replicate m ' ') = acc + m := by
    intro m
    induction m with
    | zero => intro acc; simp
    | succ m ih =>
      intro acc
      rw [List.replicate_succ, List.foldl_cons, ih]
      have hb : charBytes ' ' = 1 := rfl
      rw [hb]
      omega
  unfold utf8Len
  exact (key n 0).trans (by omega)

/-- C10, counterexample.  A whitespace-only input of 5242881 bytes is
rejected by the size guard, so its error list is the size error, not the
missing-header error the claim promises for every whitespace-only
input. -/
theorem claim10_counterexample :
    pyStrip bigWs.data = [] ∧
    errorsOf (parse_vcf bigWs 5) ≠ ["Invalid VCF file: missing ##fileformat header"] := by
  have hlen : utf8Len bigWs = 5242881 := utf8Len_replicate _
  refine ⟨pyStrip_replicate _, ?_⟩
  unfold parse_vcf
  rw [hlen, if_pos (by norm_num)]
  decide

end PharmaGuard
